import Mathlib

/-!
Verification development for the sustainability-KPI pipeline.

Shallow embedding of the core modules:
  * `kpi_service.py`  — `compute_yearly_totals`, `extract_year_row`
  * `reporting.py`    — `_format_change`, `build_indicator_narrative`
  * `ai_agent.py`     — `_detect_indicator`, `_detect_years`, `answer`
  * `data_loader.py`  — `discover_files`, `load_indicator`

Modelling conventions:
  * pandas float values are embedded as exact rationals (`ℚ`) extended with
    the IEEE special values NaN, +inf and -inf (`FVal`), which arise in this
    pipeline only from `diff()` on the first row and from `pct_change()`
    when a previous total is zero.  `pd.isna` holds exactly for NaN.
  * text is `List Char`; Python's case-insensitive substring test is
    `containsSeq` over `Char.toLower`-mapped characters; the regex word
    character class is modelled with its ASCII semantics `[A-Za-z0-9_]`.
  * exceptions are `Except` values with a structured error type whose
    constructors correspond one-to-one to the `raise` sites of the code.
-/

/-- IEEE-style float value as produced by the pandas pipeline: an exact
rational, or one of the special values NaN / +inf / -inf. -/
inductive FVal where
  | nan : FVal
  | pinf : FVal
  | ninf : FVal
  | num : ℚ → FVal
deriving DecidableEq

/-- Model of `pd.isna`: true exactly on NaN (note: false on ±inf). -/
def FVal.isna : FVal → Bool
  | .nan => true
  | _ => false

/-- Python float comparison `v > 0` (False for NaN, True for +inf). -/
def FVal.gt0 : FVal → Bool
  | .num a => decide (0 < a)
  | .pinf => true
  | _ => false

/-- Python `abs` on floats (abs(NaN) = NaN, abs(±inf) = +inf). -/
def FVal.fabs : FVal → FVal
  | .nan => .nan
  | .pinf => .pinf
  | .ninf => .pinf
  | .num a => .num |a|

/-- One measurement row of the normalized per-indicator table
(the `Year`, `Month`, `Value` and `Unit` columns used by the core;
`Indicator` and `Remarks` are never read after schema validation). -/
structure Row where
  year : Int
  month : String
  value : ℚ
  unit : String
deriving DecidableEq

/-- One output row of `compute_yearly_totals`. -/
structure YearlyRow where
  year : Int
  total_value : ℚ
  change_abs : FVal
  change_pct : FVal
deriving DecidableEq

/-- pandas `pct_change() * 100` for one step: `(t/p - 1) * 100` with float
division-by-zero semantics (0/0 = NaN, t/0 = ±inf for t ≠ 0). -/
def pctChange (t p : ℚ) : FVal :=
  if p = 0 then (if t = 0 then .nan else if 0 < t then .pinf else .ninf)
  else .num ((t - p) / p * 100)

/-- Sum of the `Value` column over the rows of one year
(the `groupby("Year").agg(total_value=("Value", "sum"))` cell). -/
def rowTotal (rows : List Row) (y : Int) : ℚ :=
  ((rows.filter (fun r => decide (r.year = y))).map Row.value).sum

/-- The distinct years of the input in ascending order: the group keys of
`groupby("Year")` after `sort_values("Year")`. -/
def distinctYears (rows : List Row) : List Int :=
  List.insertionSort (· ≤ ·) (rows.map Row.year).dedup

/-- Second pass of `compute_yearly_totals`: `diff()` and `pct_change()`
over the (year, total) pairs, threading the previous total. -/
def addChanges : Option ℚ → List (Int × ℚ) → List YearlyRow
  | _, [] => []
  | none, (y, t) :: rest => ⟨y, t, .nan, .nan⟩ :: addChanges (some t) rest
  | some p, (y, t) :: rest =>
      ⟨y, t, .num (t - p), pctChange t p⟩ :: addChanges (some t) rest

/-- Embedding of `kpi_service.compute_yearly_totals`: group by year, sum
values, sort by year ascending, then compute year-on-year `diff()` and
`pct_change() * 100`. -/
def compute_yearly_totals (rows : List Row) : List YearlyRow :=
  addChanges none ((distinctYears rows).map (fun y => (y, rowTotal rows y)))

/-- Adjacency relation satisfied by consecutive output rows. -/
def adjRel (a b : YearlyRow) : Prop :=
  b.change_abs = .num (b.total_value - a.total_value) ∧
    b.change_pct = pctChange b.total_value a.total_value

lemma addChanges_pairs (l : List (Int × ℚ)) :
    ∀ p, (addChanges p l).map (fun e => (e.year, e.total_value)) = l := by
  induction l with
  | nil => intro p; cases p <;> simp [addChanges]
  | cons hd tl ih =>
    intro p
    obtain ⟨y, t⟩ := hd
    cases p <;> simp [addChanges, ih]

lemma addChanges_years (l : List (Int × ℚ)) :
    ∀ p, (addChanges p l).map YearlyRow.year = l.map Prod.fst := by
  induction l with
  | nil => intro p; cases p <;> simp [addChanges]
  | cons hd tl ih =>
    intro p
    obtain ⟨y, t⟩ := hd
    cases p <;> simp [addChanges, ih]

lemma compute_yearly_totals_years (rows : List Row) :
    (compute_yearly_totals rows).map YearlyRow.year = distinctYears rows := by
  rw [compute_yearly_totals, addChanges_years, List.map_map]
  exact List.map_id _

lemma addChanges_chain' (l : List (Int × ℚ)) :
    ∀ p, List.Chain' adjRel (addChanges p l) := by
  induction l with
  | nil => intro p; cases p <;> simp [addChanges]
  | cons hd tl ih =>
    intro p
    obtain ⟨y, t⟩ := hd
    have htail := ih (some t)
    have hhead : ∀ b ∈ (addChanges (some t) tl).head?,
        adjRel ⟨y, t, .nan, .nan⟩ b ∧ ∀ q : ℚ,
          adjRel ⟨y, t, .num (t - q), pctChange t q⟩ b := by
      intro b hb
      cases tl with
      | nil => simp [addChanges] at hb
      | cons hd2 tl2 =>
        obtain ⟨y2, t2⟩ := hd2
        simp [addChanges] at hb
        subst hb
        exact ⟨⟨rfl, rfl⟩, fun q => ⟨rfl, rfl⟩⟩
    cases p with
    | none =>
      rw [addChanges, List.chain'_cons']
      exact ⟨fun b hb => (hhead b hb).1, htail⟩
    | some q =>
      rw [addChanges, List.chain'_cons']
      exact ⟨fun b hb => (hhead b hb).2 q, htail⟩

lemma compute_yearly_totals_chain' (rows : List Row) :
    List.Chain' adjRel (compute_yearly_totals rows) :=
  addChanges_chain' _ none

lemma addChanges_head_none (l : List (Int × ℚ)) :
    ∀ e ∈ (addChanges none l).head?, e.change_abs = .nan ∧ e.change_pct = .nan := by
  cases l with
  | nil => simp [addChanges]
  | cons hd tl =>
    obtain ⟨y, t⟩ := hd
    intro e he
    simp [addChanges] at he
    subst he
    exact ⟨rfl, rfl⟩

lemma addChanges_mem_pairs {l : List (Int × ℚ)} {p : Option ℚ} {e : YearlyRow}
    (he : e ∈ addChanges p l) : (e.year, e.total_value) ∈ l := by
  rw [← addChanges_pairs l p]
  exact List.mem_map_of_mem _ he

lemma distinctYears_sorted_lt (rows : List Row) :
    (distinctYears rows).Pairwise (· < ·) := by
  have hs : (distinctYears rows).Sorted (· ≤ ·) :=
    List.sorted_insertionSort _ _
  have hn : (distinctYears rows).Nodup :=
    (List.perm_insertionSort _ _).nodup_iff.mpr (List.nodup_dedup _)
  exact hs.lt_of_le hn

lemma mem_distinctYears (rows : List Row) (y : Int) :
    y ∈ distinctYears rows ↔ ∃ r ∈ rows, r.year = y := by
  rw [distinctYears]
  rw [(List.perm_insertionSort (· ≤ ·) (rows.map Row.year).dedup).mem_iff]
  rw [List.mem_dedup, List.mem_map]

lemma compute_yearly_totals_total (rows : List Row) {e : YearlyRow}
    (he : e ∈ compute_yearly_totals rows) :
    e.total_value = rowTotal rows e.year := by
  have h := addChanges_mem_pairs he
  rw [List.mem_map] at h
  obtain ⟨y, _, hy⟩ := h
  obtain ⟨h1, h2⟩ := Prod.mk.injEq .. ▸ hy
  rw [← h2, ← h1]

/-- C1: `compute_yearly_totals` returns one record per distinct year of the
input, sorted by year strictly ascending, and each record's `total_value` is
exactly the sum of the `value` fields of the input rows of that year. -/
theorem compute_yearly_totals_correct (rows : List Row) :
    ((compute_yearly_totals rows).map YearlyRow.year).Pairwise (· < ·) ∧
    (∀ y : Int, y ∈ (compute_yearly_totals rows).map YearlyRow.year ↔
      ∃ r ∈ rows, r.year = y) ∧
    ∀ e ∈ compute_yearly_totals rows,
      e.total_value =
        ((rows.filter (fun r => decide (r.year = e.year))).map Row.value).sum := by
  refine ⟨?_, ?_, ?_⟩
  · rw [compute_yearly_totals_years]
    exact distinctYears_sorted_lt rows
  · intro y
    rw [compute_yearly_totals_years]
    exact mem_distinctYears rows y
  · intro e he
    exact compute_yearly_totals_total rows he

lemma compute_adj (rows : List Row) {i : ℕ} {prev cur : YearlyRow}
    (hp : (compute_yearly_totals rows)[i]? = some prev)
    (hc : (compute_yearly_totals rows)[i + 1]? = some cur) :
    adjRel prev cur := by
  rw [List.getElem?_eq_some] at hp hc
  obtain ⟨hip, hp⟩ := hp
  obtain ⟨hic, hc⟩ := hc
  have hch := compute_yearly_totals_chain' rows
  rw [List.chain'_iff_get] at hch
  have := hch i (by omega)
  rw [← hp, ← hc]
  exact this

/-- C2: in the output of `compute_yearly_totals`, the first record's
`change_abs` is null (NaN), and every later record's `change_abs` is exactly
its `total_value` minus the previous record's `total_value`. -/
theorem compute_yearly_totals_change_abs (rows : List Row) :
    (∀ e, (compute_yearly_totals rows).head? = some e → e.change_abs = FVal.nan) ∧
    ∀ (i : ℕ) (prev cur : YearlyRow),
      (compute_yearly_totals rows)[i]? = some prev →
      (compute_yearly_totals rows)[i + 1]? = some cur →
      cur.change_abs = FVal.num (cur.total_value - prev.total_value) := by
  constructor
  · intro e he
    exact (addChanges_head_none _ e he).1
  · intro i prev cur hp hc
    exact (compute_adj rows hp hc).1

/-- Concrete two-year input used to witness the aggregation theorems. -/
def exRows : List Row := [⟨2022, "01", 100, "kWh"⟩, ⟨2023, "01", 120, "kWh"⟩]

/-- Concrete input whose first-year total is zero (exercises the
`pct_change` division-by-zero path). -/
def exRowsZero : List Row := [⟨2021, "01", 0, "m3"⟩, ⟨2022, "01", 5, "m3"⟩]

lemma compute_exRows :
    compute_yearly_totals exRows =
      [⟨2022, 100, .nan, .nan⟩, ⟨2023, 120, .num 20, .num 20⟩] := by
  have h1 : distinctYears exRows = [2022, 2023] := by decide
  rw [compute_yearly_totals, h1]
  have h2 : rowTotal exRows 2022 = 100 := by simp [rowTotal, exRows]
  have h3 : rowTotal exRows 2023 = 120 := by simp [rowTotal, exRows]
  simp [h2, h3, addChanges, pctChange]
  norm_num

lemma compute_exRowsZero :
    compute_yearly_totals exRowsZero =
      [⟨2021, 0, .nan, .nan⟩, ⟨2022, 5, .num 5, .pinf⟩] := by
  have h1 : distinctYears exRowsZero = [2021, 2022] := by decide
  rw [compute_yearly_totals, h1]
  have h2 : rowTotal exRowsZero 2021 = 0 := by simp [rowTotal, exRowsZero]
  have h3 : rowTotal exRowsZero 2022 = 5 := by simp [rowTotal, exRowsZero]
  simp [h2, h3, addChanges, pctChange]

theorem compute_yearly_totals_change_abs_witness :
    (⟨2023, 120, .num 20, .num 20⟩ : YearlyRow).change_abs =
      FVal.num ((⟨2023, 120, .num 20, .num 20⟩ : YearlyRow).total_value -
        (⟨2022, 100, .nan, .nan⟩ : YearlyRow).total_value) :=
  (compute_yearly_totals_change_abs exRows).2 0
    ⟨2022, 100, .nan, .nan⟩ ⟨2023, 120, .num 20, .num 20⟩
    (by rw [compute_exRows]; rfl) (by rw [compute_exRows]; rfl)

/-- C3 counterexample: on the input `[(2021, 0), (2022, 5)]` the previous
total is zero, yet `change_pct` of the 2022 record is +inf, which is not
null (`pd.isna` is false on infinities). -/
theorem change_pct_zero_prev_counterexample :
    compute_yearly_totals exRowsZero =
      [⟨2021, 0, FVal.nan, FVal.nan⟩, ⟨2022, 5, FVal.num 5, FVal.pinf⟩] ∧
    FVal.pinf.isna = false :=
  ⟨compute_exRowsZero, rfl⟩

/-- C3 amended: for i > 0 with nonzero previous total, `change_pct[i]`
equals `(total_value[i] - total_value[i-1]) / total_value[i-1] * 100`
exactly.  `change_pct` is null (NaN) for the earliest year, and when the
previous total is zero it is null only when the current total is also zero;
when the previous total is zero and the current total is nonzero the value
is +inf or -inf (according to the current total's sign), not null. -/
theorem compute_yearly_totals_change_pct (rows : List Row) :
    (∀ e, (compute_yearly_totals rows).head? = some e → e.change_pct = FVal.nan) ∧
    ∀ (i : ℕ) (prev cur : YearlyRow),
      (compute_yearly_totals rows)[i]? = some prev →
      (compute_yearly_totals rows)[i + 1]? = some cur →
      (prev.total_value ≠ 0 →
        cur.change_pct =
          FVal.num ((cur.total_value - prev.total_value) / prev.total_value * 100)) ∧
      (prev.total_value = 0 → cur.total_value = 0 → cur.change_pct = FVal.nan) ∧
      (prev.total_value = 0 → 0 < cur.total_value → cur.change_pct = FVal.pinf) ∧
      (prev.total_value = 0 → cur.total_value < 0 → cur.change_pct = FVal.ninf) := by
  constructor
  · intro e he
    exact (addChanges_head_none _ e he).2
  · intro i prev cur hp hc
    have hadj := (compute_adj rows hp hc).2
    refine ⟨?_, ?_, ?_, ?_⟩
    · intro hpz
      rw [hadj, pctChange, if_neg hpz]
    · intro hpz hcz
      rw [hadj, pctChange, if_pos hpz, if_pos hcz]
    · intro hpz hcz
      rw [hadj, pctChange, if_pos hpz, if_neg (by linarith), if_pos hcz]
    · intro hpz hcz
      rw [hadj, pctChange, if_pos hpz, if_neg (by linarith), if_neg (by linarith)]

theorem compute_yearly_totals_change_pct_witness :
    (⟨2022, 5, .num 5, .pinf⟩ : YearlyRow).change_pct = FVal.pinf :=
  ((compute_yearly_totals_change_pct exRowsZero).2 0
    ⟨2021, 0, .nan, .nan⟩ ⟨2022, 5, .num 5, .pinf⟩
    (by rw [compute_exRowsZero]; rfl) (by rw [compute_exRowsZero]; rfl)).2.2.1
    rfl (by norm_num)

theorem compute_yearly_totals_correct_witness :
    (⟨2023, 120, .num 20, .num 20⟩ : YearlyRow).total_value =
      ((exRows.filter (fun r =>
          decide (r.year = (⟨2023, 120, .num 20, .num 20⟩ : YearlyRow).year))).map
        Row.value).sum :=
  (compute_yearly_totals_correct exRows).2.2 ⟨2023, 120, .num 20, .num 20⟩
    (by rw [compute_exRows]; simp)

deriving instance DecidableEq for Except

/-- Error type whose constructors correspond one-to-one to the `raise`
sites of the embedded modules. -/
inductive AgentError where
  | unknownIndicator : AgentError
  | missingColumns : String → AgentError
  | noObjectsToConcatenate : AgentError
  | indicatorNotDetected : AgentError
  | yearNotFound : Int → AgentError
  | noDataForYear : List Int → AgentError
  | maxOfEmptyYears : AgentError
deriving DecidableEq

/-- Scan loop of `extract_year_row`: find the first row whose `Year` matches,
remembering the row immediately before it. -/
def extractGo (year : Int) : Option YearlyRow → List YearlyRow →
    Except AgentError (YearlyRow × Option YearlyRow)
  | _, [] => .error (.yearNotFound year)
  | prev, r :: rest =>
      if r.year = year then .ok (r, prev) else extractGo year (some r) rest

/-- Embedding of `kpi_service.extract_year_row`: the row of the requested
year together with the positionally preceding row (`None` for the first
row); raises when the year has no matching total. -/
def extract_year_row (yearly : List YearlyRow) (year : Int) :
    Except AgentError (YearlyRow × Option YearlyRow) :=
  extractGo year none yearly

lemma extractGo_not_found (year : Int) (l : List YearlyRow) :
    ∀ p, (∀ r ∈ l, r.year ≠ year) →
      extractGo year p l = .error (.yearNotFound year) := by
  induction l with
  | nil => intro p _; rfl
  | cons hd tl ih =>
    intro p hne
    rw [extractGo, if_neg (hne hd (List.mem_cons_self hd tl))]
    exact ih (some hd) fun r hr => hne r (List.mem_cons_of_mem hd hr)

lemma extractGo_found (year : Int) (l : List YearlyRow) :
    ∀ (p : Option YearlyRow) (i : ℕ) (hi : i < l.length),
      (l.get ⟨i, hi⟩).year = year →
      (∀ j (hj : j < i), (l.get ⟨j, by omega⟩).year ≠ year) →
      extractGo year p l =
        .ok (l.get ⟨i, hi⟩,
          if i = 0 then p else l[i - 1]?) := by
  induction l with
  | nil => intro p i hi _ _; simp at hi
  | cons hd tl ih =>
    intro p i hi hyear hfirst
    cases i with
    | zero =>
      have hy : hd.year = year := hyear
      rw [extractGo, if_pos hy]
      simp
    | succ n =>
      have hne : hd.year ≠ year := hfirst 0 (Nat.succ_pos n)
      rw [extractGo, if_neg hne]
      have hrec := ih (some hd) n (by simpa using hi) (by simpa using hyear)
        (fun j hj => by
          have := hfirst (j + 1) (by omega)
          simpa using this)
      rw [hrec]
      cases n with
      | zero => simp
      | succ m => simp

/-- C8: `extract_year_row` fails with a year-not-found error when no total
matches the requested year; otherwise it returns the first matching record
as current and the positionally preceding record as previous, with previous
null exactly when the match is the first element. -/
theorem extract_year_row_spec (yearly : List YearlyRow) (year : Int) :
    ((∀ r ∈ yearly, r.year ≠ year) →
      extract_year_row yearly year = .error (.yearNotFound year)) ∧
    ∀ (i : ℕ) (hi : i < yearly.length),
      (yearly.get ⟨i, hi⟩).year = year →
      (∀ j (hj : j < i), (yearly.get ⟨j, by omega⟩).year ≠ year) →
      extract_year_row yearly year =
        .ok (yearly.get ⟨i, hi⟩, if i = 0 then none else yearly[i - 1]?) := by
  constructor
  · intro hne
    exact extractGo_not_found year yearly none hne
  · intro i hi hyear hfirst
    exact extractGo_found year yearly none i hi hyear hfirst

theorem extract_year_row_spec_witness :
    extract_year_row [⟨2023, 10, FVal.nan, FVal.nan⟩] 2023 =
      .ok (⟨2023, 10, FVal.nan, FVal.nan⟩, none) := by
  have h := (extract_year_row_spec [⟨2023, 10, FVal.nan, FVal.nan⟩] 2023).2 0
    (by simp) rfl (fun j hj => absurd hj (by omega))
  simpa using h

/-- The four indicator keys (the `IndicatorKey` Literal of `ai_agent.py`). -/
inductive IndicatorKey where
  | energy : IndicatorKey
  | water : IndicatorKey
  | emissions : IndicatorKey
  | waste : IndicatorKey
deriving DecidableEq

/-- Per-indicator registry metadata. -/
structure IndicatorMeta where
  kpi_name : String
  gri_code : String
  sheet_name : String
deriving DecidableEq

/-- Modelled from the spec: `config.py` (the Indicator Registry mapping each
key to display name, GRI compliance code and source sheet name) is not among
the sources; display names and sheet names follow the spec's registry
description, compliance codes its keyword table (302, 303, 305, 306). -/
def INDICATORS : IndicatorKey → IndicatorMeta
  | .energy => ⟨"Energy Consumption", "GRI 302", "Energy"⟩
  | .water => ⟨"Water Consumption", "GRI 303", "Water"⟩
  | .emissions => ⟨"GHG Emissions", "GRI 305", "Emissions"⟩
  | .waste => ⟨"Waste Generation", "GRI 306", "Waste"⟩

/-- The change sentence of `reporting._format_change`, kept structured: the
baseline sentence carries no numbers; the change sentence carries the
direction word and the absolute change and percentage magnitudes (the
fixed-format rendering of those magnitudes is abstracted). -/
inductive ChangeClause where
  | baseline : ChangeClause
  | change : String → FVal → FVal → ChangeClause
deriving DecidableEq

/-- Embedding of `reporting._format_change`.  In the source the two
arguments are `None` together; `getD .nan` merely totalizes the mixed
`some`/`none` case that `build_indicator_narrative` never produces. -/
def format_change : Option FVal → Option FVal → ChangeClause
  | none, _ => .baseline
  | some v, p =>
      if v.isna then .baseline
      else .change (if v.gt0 then "increase" else "reduction")
        v.fabs ((p.getD .nan).fabs)

/-- Structured content of the narrative template of
`reporting.build_indicator_narrative` (total with unit, change clause,
compliance code; the fixed English sentences around them are abstracted). -/
structure Narrative where
  year : Int
  total : ℚ
  unit : String
  clause : ChangeClause
  gri_code : String
deriving DecidableEq

/-- Embedding of `reporting.build_indicator_narrative`: aggregate, extract
(current, previous) for the year, derive the change values (`None` exactly
when there is no previous row), resolve the unit label (Python `or`:
an empty or missing `unit_label` falls back to the first row's unit), and
assemble the narrative. -/
def build_indicator_narrative (key : IndicatorKey) (rows : List Row)
    (year : Int) (unit_label : Option String) : Except AgentError Narrative :=
  let yearly := compute_yearly_totals rows
  match extract_year_row yearly year with
  | .error e => .error e
  | .ok (current, prev) =>
      let change_abs : Option FVal := prev.map (fun _ => current.change_abs)
      let change_pct : Option FVal := prev.map (fun _ => current.change_pct)
      let unit : String :=
        match unit_label with
        | some u => if u = "" then (rows.head?.map Row.unit).getD "" else u
        | none => (rows.head?.map Row.unit).getD ""
      .ok ⟨year, current.total_value, unit,
        format_change change_abs change_pct, (INDICATORS key).gri_code⟩

/-- C4: the narrative's change clause is the baseline sentence, without
numbers, exactly when the year has no previous year; with a previous year it
says "increase" when change_abs > 0 and "reduction" when change_abs ≤ 0
(zero included), carrying the absolute change and absolute percentage. -/
theorem build_indicator_narrative_clause (key : IndicatorKey) (rows : List Row)
    (year : Int) (unit_label : Option String) (n : Narrative)
    (hok : build_indicator_narrative key rows year unit_label = .ok n) :
    ∀ cur prev,
      extract_year_row (compute_yearly_totals rows) year = .ok (cur, prev) →
      (prev = none → n.clause = .baseline) ∧
      (∀ p a, prev = some p → cur.change_abs = .num a →
        (0 < a → n.clause = .change "increase" (.num |a|) cur.change_pct.fabs) ∧
        (a ≤ 0 → n.clause = .change "reduction" (.num |a|) cur.change_pct.fabs)) := by
  intro cur prev hex
  rw [build_indicator_narrative.eq_def] at hok
  simp only [hex] at hok
  rw [Except.ok.injEq] at hok
  subst hok
  constructor
  · rintro rfl
    rfl
  · rintro p a rfl ha
    constructor
    · intro hpos
      simp [format_change, ha, FVal.isna, FVal.gt0, FVal.fabs, hpos]
    · intro hneg
      have hng : ¬ (0 < a) := not_lt.mpr hneg
      simp [format_change, ha, FVal.isna, FVal.gt0, FVal.fabs, hng]

lemma extract_exRows_2023 :
    extract_year_row (compute_yearly_totals exRows) 2023 =
      .ok (⟨2023, 120, .num 20, .num 20⟩, some ⟨2022, 100, .nan, .nan⟩) := by
  rw [compute_exRows]
  simp [extract_year_row, extractGo]

lemma narrative_exRows_ok :
    build_indicator_narrative .energy exRows 2023 none =
      .ok ⟨2023, 120, "kWh", .change "increase" (.num 20) (.num 20),
        "GRI 302"⟩ := by
  rw [build_indicator_narrative.eq_def]
  simp only [extract_exRows_2023]
  simp [exRows, format_change, FVal.isna, FVal.gt0, FVal.fabs, INDICATORS]

theorem build_indicator_narrative_clause_witness :
    (⟨2023, 120, "kWh", .change "increase" (.num 20) (.num 20),
        "GRI 302"⟩ : Narrative).clause =
      .change "increase" (.num |(20 : ℚ)|)
        (FVal.num 20).fabs :=
  (((build_indicator_narrative_clause .energy exRows 2023 none _
      narrative_exRows_ok) _ _ extract_exRows_2023).2
    ⟨2022, 100, .nan, .nan⟩ 20 rfl rfl).1 (by norm_num)

/-- Needle-at-head test used by the substring model. -/
def startsWithSeq : List Char → List Char → Bool
  | [], _ => true
  | _ :: _, [] => false
  | a :: as, b :: bs => decide (a = b) && startsWithSeq as bs

/-- Model of Python's `needle in haystack` substring test on text. -/
def containsSeq (needle : List Char) : List Char → Bool
  | [] => needle.isEmpty
  | b :: bs => startsWithSeq needle (b :: bs) || containsSeq needle bs

/-- Case-insensitive keyword hit: `kw in query.lower()`. -/
def kwMatch (q : List Char) (kw : String) : Bool :=
  containsSeq kw.toList (q.map Char.toLower)

def energyKws : List String := ["energy", "electricity", "power", "302"]

def waterKws : List String := ["water", "303"]

def emissionsKws : List String :=
  ["emission", "emissions", "co2", "carbon", "ghg", "305"]

def wasteKws : List String := ["waste", "306"]

/-- Embedding of `SustainabilityAgent._detect_indicator`: the if-chain over
`any(word in q for word in [...])` tests, in source order, raising when no
keyword set matches. -/
def detect_indicator (q : List Char) : Except AgentError IndicatorKey :=
  if energyKws.any (kwMatch q) then .ok .energy
  else if waterKws.any (kwMatch q) then .ok .water
  else if emissionsKws.any (kwMatch q) then .ok .emissions
  else if wasteKws.any (kwMatch q) then .ok .waste
  else .error .indicatorNotDetected

/-- The fixed keyword table in evaluation order, as the spec states it. -/
def indicatorTable : List (IndicatorKey × List String) :=
  [(.energy, energyKws), (.water, waterKws),
   (.emissions, emissionsKws), (.waste, wasteKws)]

/-- C6: `detect_indicator` returns the first indicator, in the fixed order
energy, water, emissions, waste, whose keyword set has a case-insensitive
substring hit in the query, and fails with the indicator-not-detected error
when no keyword set matches. -/
theorem detect_indicator_spec (q : List Char) :
    detect_indicator q =
      match indicatorTable.find? (fun e => e.2.any (kwMatch q)) with
      | some e => .ok e.1
      | none => .error .indicatorNotDetected := by
  rw [detect_indicator]
  by_cases h1 : energyKws.any (kwMatch q)
  · simp [indicatorTable, List.find?, h1]
  · by_cases h2 : waterKws.any (kwMatch q)
    · simp [indicatorTable, List.find?, h1, h2]
    · by_cases h3 : emissionsKws.any (kwMatch q)
      · simp [indicatorTable, List.find?, h1, h2, h3]
      · by_cases h4 : wasteKws.any (kwMatch q)
        · simp [indicatorTable, List.find?, h1, h2, h3, h4]
        · simp [indicatorTable, List.find?, h1, h2, h3, h4]

/-- Regex word-character class `\w` with its ASCII semantics
`[A-Za-z0-9_]`. -/
def isWordChar (c : Char) : Bool := c.isAlphanum || decide (c = '_')

/-- Four characters matching `20[0-9][0-9]`. -/
def yearTok (c0 c1 c2 c3 : Char) : Bool :=
  decide (c0 = '2') && decide (c1 = '0') && c2.isDigit && c3.isDigit

/-- `int(...)` of the matched four-digit token. -/
def tokVal (c2 c3 : Char) : Nat := 2000 + 10 * (c2.toNat - 48) + (c3.toNat - 48)

/-- Word boundary between the last matched character (a digit) and the rest
of the text: end of text or a non-word character. -/
def boundaryAfterL (rest : List Char) : Bool :=
  match rest with
  | [] => true
  | c :: _ => !isWordChar c

/-- Scanner embedding of `re.findall(r"\b(20[0-9]{2})\b", query)` followed
by `int(...)` on each hit: left-to-right scan in which `prevWord` records
whether the character before the current position is a word character (all
that `\b` depends on); after a hit the scan resumes after the four matched
digit characters. -/
def findYearsAux (prevWord : Bool) : List Char → List Nat
  | c0 :: c1 :: c2 :: c3 :: rest =>
    if !prevWord && yearTok c0 c1 c2 c3 && boundaryAfterL rest then
      tokVal c2 c3 :: findYearsAux true rest
    else
      findYearsAux (isWordChar c0) (c1 :: c2 :: c3 :: rest)
  | _ => []

/-- `re.findall` over the whole query (scan starts at a boundary). -/
def findYears (cs : List Char) : List Nat := findYearsAux false cs

/-- The maximal word-character runs of the text, in order. -/
def wordTokens : List Char → List (List Char)
  | [] => []
  | c :: rest =>
    if isWordChar c then
      (c :: rest.takeWhile isWordChar) :: wordTokens (rest.dropWhile isWordChar)
    else wordTokens rest
termination_by cs => cs.length
decreasing_by
  all_goals simp only [List.length_cons]
  all_goals first
    | exact Nat.lt_succ_of_le (List.dropWhile_sublist _).length_le
    | exact Nat.lt_succ_of_le (Nat.le_refl _)

/-- A token of exactly four characters matching `20[0-9][0-9]`. -/
def is20dd : List Char → Bool
  | [c0, c1, c2, c3] => yearTok c0 c1 c2 c3
  | _ => false

/-- Numeric value of such a token. -/
def tokValOf : List Char → Nat
  | [_, _, c2, c3] => tokVal c2 c3
  | _ => 0

/-- The claim's reading of `_detect_years`: the values of all 4-digit year
tokens of the text, in order of appearance. -/
def yearTokensSpec (cs : List Char) : List Nat :=
  ((wordTokens cs).filter is20dd).map tokValOf

lemma findYearsAux_short (b : Bool) :
    ∀ cs : List Char, cs.length < 4 → findYearsAux b cs = [] := by
  intro cs h
  rcases cs with _ | ⟨a, _ | ⟨a1, _ | ⟨a2, _ | ⟨a3, t⟩⟩⟩⟩
  · rfl
  · rfl
  · rfl
  · rfl
  · simp [List.length_cons] at h
    omega

lemma yearTok_head_word {c0 c1 c2 c3 : Char} (h : yearTok c0 c1 c2 c3 = true) :
    isWordChar c0 = true := by
  simp only [yearTok, Bool.and_eq_true, decide_eq_true_eq] at h
  obtain ⟨⟨⟨h0, _⟩, _⟩, _⟩ := h
  subst h0
  decide

lemma digit_isWordChar {c : Char} (h : c.isDigit = true) : isWordChar c = true := by
  simp [isWordChar, Char.isAlphanum, h]

lemma yearTok_not_word {c0 c1 c2 c3 : Char} (h : isWordChar c0 = false) :
    yearTok c0 c1 c2 c3 = false := by
  cases hy : yearTok c0 c1 c2 c3
  · rfl
  · exact absurd (yearTok_head_word hy) (by simp [h])

lemma findYearsAux_true_eq (n : ℕ) :
    ∀ cs : List Char, cs.length ≤ n →
      findYearsAux true cs = findYearsAux false (cs.dropWhile isWordChar) := by
  induction n with
  | zero =>
    intro cs hlen
    have hnil : cs = [] := List.length_eq_zero.mp (Nat.le_zero.mp hlen)
    subst hnil
    rfl
  | succ n ih =>
    intro cs hlen
    rcases cs with _ | ⟨c, rest⟩
    · rfl
    · rw [List.dropWhile_cons]
      by_cases hw : isWordChar c = true
      · rw [if_pos hw]
        rcases rest with _ | ⟨c1, _ | ⟨c2, _ | ⟨c3, r⟩⟩⟩
        · rw [findYearsAux_short true _ (by simp),
            findYearsAux_short false _ (Nat.lt_of_le_of_lt
              (List.dropWhile_sublist _).length_le (by simp))]
        · rw [findYearsAux_short true _ (by simp),
            findYearsAux_short false _ (Nat.lt_of_le_of_lt
              (List.dropWhile_sublist _).length_le (by simp))]
        · rw [findYearsAux_short true _ (by simp),
            findYearsAux_short false _ (Nat.lt_of_le_of_lt
              (List.dropWhile_sublist _).length_le (by simp))]
        · have hstep : findYearsAux true (c :: c1 :: c2 :: c3 :: r) =
              findYearsAux (isWordChar c) (c1 :: c2 :: c3 :: r) := by
            rw [findYearsAux]
            simp
          rw [hstep, hw]
          exact ih (c1 :: c2 :: c3 :: r)
            (by simp only [List.length_cons] at hlen ⊢; omega)
      · rw [if_neg hw]
        have hwf : isWordChar c = false := by simpa using hw
        rcases rest with _ | ⟨c1, _ | ⟨c2, _ | ⟨c3, r⟩⟩⟩
        · rfl
        · rfl
        · rfl
        · have hyt : yearTok c c1 c2 c3 = false := yearTok_not_word hwf
          rw [findYearsAux, findYearsAux]
          simp [hyt]

lemma is20dd_length {tok : List Char} (h : is20dd tok = true) : tok.length = 4 := by
  rcases tok with _ | ⟨a, _ | ⟨b, _ | ⟨c, _ | ⟨d, _ | ⟨e, t⟩⟩⟩⟩⟩
  · simp [is20dd] at h
  · simp [is20dd] at h
  · simp [is20dd] at h
  · simp [is20dd] at h
  · rfl
  · simp [is20dd] at h

lemma wordTokens_token_le (n : ℕ) :
    ∀ l : List Char, l.length ≤ n → ∀ tok ∈ wordTokens l, tok.length ≤ l.length := by
  induction n with
  | zero =>
    intro l hlen tok htok
    have hnil : l = [] := List.length_eq_zero.mp (Nat.le_zero.mp hlen)
    subst hnil
    simp [wordTokens] at htok
  | succ n ih =>
    intro l hlen tok htok
    rcases l with _ | ⟨c, rest⟩
    · simp [wordTokens] at htok
    · rw [wordTokens] at htok
      by_cases hw : isWordChar c = true
      · rw [if_pos hw] at htok
        rcases List.mem_cons.mp htok with h | h
        · subst h
          simp only [List.length_cons, Nat.succ_le_succ_iff]
          exact (List.takeWhile_sublist _).length_le
        · have hd : (rest.dropWhile isWordChar).length ≤ rest.length :=
            (List.dropWhile_sublist _).length_le
          have hdrop : (rest.dropWhile isWordChar).length ≤ n := by
            simp only [List.length_cons] at hlen
            omega
          have := ih (rest.dropWhile isWordChar) hdrop tok h
          simp only [List.length_cons]
          omega
      · rw [if_neg hw] at htok
        have := ih rest (by simp only [List.length_cons] at hlen; omega) tok htok
        simp only [List.length_cons]
        omega

lemma yearTokensSpec_short (l : List Char) (h : l.length < 4) :
    yearTokensSpec l = [] := by
  rw [yearTokensSpec]
  have hf : (wordTokens l).filter is20dd = [] := by
    rw [List.filter_eq_nil_iff]
    intro tok htok hp
    have h4 := is20dd_length hp
    have hle := wordTokens_token_le l.length l le_rfl tok htok
    omega
  rw [hf]
  rfl

lemma yearTokensSpec_cons_notword {c : Char} (rest : List Char)
    (hw : isWordChar c = false) :
    yearTokensSpec (c :: rest) = yearTokensSpec rest := by
  rw [yearTokensSpec, yearTokensSpec, wordTokens, if_neg (by simp [hw])]

lemma yearTokensSpec_cons_word {c : Char} (rest : List Char)
    (hw : isWordChar c = true) :
    yearTokensSpec (c :: rest) =
      (if is20dd (c :: rest.takeWhile isWordChar) = true
        then [tokValOf (c :: rest.takeWhile isWordChar)] else []) ++
      yearTokensSpec (rest.dropWhile isWordChar) := by
  rw [yearTokensSpec, yearTokensSpec, wordTokens, if_pos hw, List.filter_cons]
  by_cases h : is20dd (c :: rest.takeWhile isWordChar) = true
  · rw [if_pos h, if_pos h]
    simp
  · rw [if_neg h, if_neg h]
    simp

lemma takeWhile_boundary_nil {r : List Char} (hb : boundaryAfterL r = true) :
    r.takeWhile isWordChar = [] := by
  rcases r with _ | ⟨x, xs⟩
  · rfl
  · have hx : isWordChar x = false := by simpa [boundaryAfterL] using hb
    rw [List.takeWhile_cons, if_neg (by simp [hx])]

lemma dropWhile_boundary_id {r : List Char} (hb : boundaryAfterL r = true) :
    r.dropWhile isWordChar = r := by
  rcases r with _ | ⟨x, xs⟩
  · rfl
  · have hx : isWordChar x = false := by simpa [boundaryAfterL] using hb
    rw [List.dropWhile_cons, if_neg (by simp [hx])]

lemma yearTok_parts {c0 c1 c2 c3 : Char} (h : yearTok c0 c1 c2 c3 = true) :
    c0 = '2' ∧ c1 = '0' ∧ c2.isDigit = true ∧ c3.isDigit = true := by
  simp only [yearTok, Bool.and_eq_true, decide_eq_true_eq] at h
  obtain ⟨⟨⟨h0, h1⟩, h2⟩, h3⟩ := h
  exact ⟨h0, h1, h2, h3⟩

lemma is20dd_run_false {c c1 c2 c3 : Char} {r : List Char}
    (hcond : (yearTok c c1 c2 c3 && boundaryAfterL r) = false) :
    is20dd (c :: (c1 :: c2 :: c3 :: r).takeWhile isWordChar) = false := by
  by_cases h1 : isWordChar c1 = true
  · by_cases h2 : isWordChar c2 = true
    · by_cases h3 : isWordChar c3 = true
      · rw [List.takeWhile_cons, if_pos h1, List.takeWhile_cons, if_pos h2,
          List.takeWhile_cons, if_pos h3]
        rcases r with _ | ⟨x, xs⟩
        · have hyt : yearTok c c1 c2 c3 = false := by
            simpa [boundaryAfterL] using hcond
          simpa [is20dd] using hyt
        · by_cases hx : isWordChar x = true
          · rw [List.takeWhile_cons, if_pos hx]
            rfl
          · have hxf : isWordChar x = false := by simpa using hx
            rw [List.takeWhile_cons, if_neg (by simp [hxf])]
            have hyt : yearTok c c1 c2 c3 = false := by
              simpa [boundaryAfterL, hxf] using hcond
            simpa [is20dd] using hyt
      · rw [List.takeWhile_cons, if_pos h1, List.takeWhile_cons, if_pos h2,
          List.takeWhile_cons, if_neg h3]
        rfl
    · rw [List.takeWhile_cons, if_pos h1, List.takeWhile_cons, if_neg h2]
      rfl
  · rw [List.takeWhile_cons, if_neg h1]
    rfl

lemma findYearsAux_false_eq (n : ℕ) :
    ∀ cs : List Char, cs.length ≤ n → findYearsAux false cs = yearTokensSpec cs := by
  induction n with
  | zero =>
    intro cs hlen
    have hnil : cs = [] := List.length_eq_zero.mp (Nat.le_zero.mp hlen)
    subst hnil
    rw [yearTokensSpec_short _ (by simp)]
    rfl
  | succ n ih =>
    intro cs hlen
    rcases cs with _ | ⟨c, rest⟩
    · rw [yearTokensSpec_short _ (by simp)]
      rfl
    · by_cases hw : isWordChar c = true
      · rcases rest with _ | ⟨c1, _ | ⟨c2, _ | ⟨c3, r⟩⟩⟩
        · rw [findYearsAux_short _ _ (by simp), yearTokensSpec_short _ (by simp)]
        · rw [findYearsAux_short _ _ (by simp), yearTokensSpec_short _ (by simp)]
        · rw [findYearsAux_short _ _ (by simp), yearTokensSpec_short _ (by simp)]
        · have hlen4 : (c1 :: c2 :: c3 :: r).length ≤ n := by
            simp only [List.length_cons] at hlen ⊢
            omega
          have hlenr : r.length ≤ n := by
            simp only [List.length_cons] at hlen
            omega
          by_cases hcond : (yearTok c c1 c2 c3 && boundaryAfterL r) = true
          · obtain ⟨hyt, hb⟩ := (Bool.and_eq_true _ _).mp hcond
            obtain ⟨h0, h1, h2, h3⟩ := yearTok_parts hyt
            have hw1 : isWordChar c1 = true := by subst h1; decide
            have hw2 : isWordChar c2 = true := digit_isWordChar h2
            have hw3 : isWordChar c3 = true := digit_isWordChar h3
            have hstep : findYearsAux false (c :: c1 :: c2 :: c3 :: r) =
                tokVal c2 c3 :: findYearsAux true r := by
              rw [findYearsAux]
              simp [hyt, hb]
            rw [hstep, findYearsAux_true_eq n r hlenr, dropWhile_boundary_id hb,
              ih r hlenr]
            rw [yearTokensSpec_cons_word _ hw]
            rw [List.takeWhile_cons, if_pos hw1, List.takeWhile_cons, if_pos hw2,
              List.takeWhile_cons, if_pos hw3, takeWhile_boundary_nil hb]
            rw [List.dropWhile_cons, if_pos hw1, List.dropWhile_cons, if_pos hw2,
              List.dropWhile_cons, if_pos hw3, dropWhile_boundary_id hb]
            have his : is20dd [c, c1, c2, c3] = true := by
              simpa [is20dd] using hyt
            rw [if_pos his]
            rfl
          · have hcondf : (yearTok c c1 c2 c3 && boundaryAfterL r) = false := by
              simpa using hcond
            have hstep : findYearsAux false (c :: c1 :: c2 :: c3 :: r) =
                findYearsAux (isWordChar c) (c1 :: c2 :: c3 :: r) := by
              rw [findYearsAux]
              simp [hcondf]
            rw [hstep, hw, findYearsAux_true_eq n _ hlen4]
            rw [ih _ (le_trans (List.dropWhile_sublist _).length_le hlen4)]
            rw [yearTokensSpec_cons_word _ hw,
              if_neg (by simp [is20dd_run_false hcondf])]
            rfl
      · have hwf : isWordChar c = false := by simpa using hw
        rw [yearTokensSpec_cons_notword _ hwf]
        rcases rest with _ | ⟨c1, _ | ⟨c2, _ | ⟨c3, r⟩⟩⟩
        · rw [findYearsAux_short _ _ (by simp), yearTokensSpec_short _ (by simp)]
        · rw [findYearsAux_short _ _ (by simp), yearTokensSpec_short _ (by simp)]
        · rw [findYearsAux_short _ _ (by simp), yearTokensSpec_short _ (by simp)]
        · have hyt : yearTok c c1 c2 c3 = false := yearTok_not_word hwf
          have hstep : findYearsAux false (c :: c1 :: c2 :: c3 :: r) =
              findYearsAux (isWordChar c) (c1 :: c2 :: c3 :: r) := by
            rw [findYearsAux]
            simp [hyt]
          rw [hstep, hwf]
          exact ih _ (by simp only [List.length_cons] at hlen ⊢; omega)

lemma findYears_eq_spec (cs : List Char) : findYears cs = yearTokensSpec cs :=
  findYearsAux_false_eq cs.length cs le_rfl

/-- Embedding of `SustainabilityAgent._detect_years`: the regex year hits
in order of appearance, or — when the text has none — the maximum of the
loaded data's `Year` column (`int(df["Year"].max())`, which on an empty
table raises, modelled by the max-of-empty error). -/
def detect_years (q : List Char) (rows : List Row) : Except AgentError (List Int) :=
  let found := findYears q
  if found.isEmpty then
    match (rows.map Row.year).max? with
    | some m => .ok [m]
    | none => .error .maxOfEmptyYears
  else .ok (found.map (fun k => (k : Int)))

/-- C7: `detect_years` returns, in order of appearance, the values of all
4-digit tokens of the text matching `20[0-9][0-9]` (the scanner agrees with
the token-by-token reading), and when the text contains none it returns the
single-element list holding the maximum available year of the loaded
data. -/
theorem detect_years_spec (q : List Char) (rows : List Row) :
    findYears q = yearTokensSpec q ∧
    (findYears q ≠ [] →
      detect_years q rows = .ok ((findYears q).map (fun k => (k : Int)))) ∧
    (findYears q = [] → ∀ m, (rows.map Row.year).max? = some m →
      detect_years q rows = .ok [m]) := by
  refine ⟨findYears_eq_spec q, ?_, ?_⟩
  · intro hne
    rcases hfy : findYears q with _ | ⟨a, as⟩
    · exact absurd hfy hne
    · simp [detect_years, hfy]
  · intro he m hm
    simp [detect_years, he, hm]

/-- Concrete three-year input for the year-detection witnesses. -/
def exRows3 : List Row := [⟨2021, "01", 10, "t"⟩, ⟨2022, "01", 11, "t"⟩, ⟨2023, "01", 12, "t"⟩]

theorem detect_years_spec_witness :
    detect_years ("emissions trend".toList) exRows3 = .ok [2023] :=
  (detect_years_spec ("emissions trend".toList) exRows3).2.2 (by decide) 2023
    (by decide)

/-- Last whitespace-delimited token of a file stem (`stem.split()[-1]`);
empty when the stem has no token (Python raises IndexError there, which the
caller catches together with the int ValueError). -/
def lastToken (cs : List Char) : List Char :=
  ((cs.reverse.dropWhile Char.isWhitespace).takeWhile
    (fun c => !c.isWhitespace)).reverse

/-- Digit run to number, most significant first. -/
def digitsToNat : List Char → Nat → Option Nat
  | [], acc => some acc
  | c :: rest, acc =>
      if c.isDigit then digitsToNat rest (acc * 10 + (c.toNat - 48)) else none

/-- Python `int(...)` on a whitespace-free token: optional minus sign then
decimal digits (we do not model the rarely relevant `+` sign and digit
underscores). Empty input fails. -/
def parseIntToken : List Char → Option Int
  | [] => none
  | '-' :: rest =>
      if rest.isEmpty then none
      else (digitsToNat rest 0).map (fun n => -(n : Int))
  | cs => (digitsToNat cs 0).map (fun n => (n : Int))

/-- Year encoded in a file stem (`int(path.stem.split()[-1])`), `none` when
the stem has no token or the token is not an integer — such files are
silently skipped. -/
def parseYearToken (stem : List Char) : Option Int :=
  parseIntToken (lastToken stem)

/-- `files[year] = path`: later files with the same year key replace the
earlier entry, as in the Python dict. -/
def upsertYear (files : List (Int × List Char)) (y : Int) (p : List Char) :
    List (Int × List Char) :=
  if files.any (fun e => decide (e.1 = y)) then
    files.map (fun e => if e.1 = y then (y, p) else e)
  else files ++ [(y, p)]

instance : DecidableRel (fun (a b : Int × List Char) => a.1 ≤ b.1) :=
  fun a b => inferInstanceAs (Decidable (a.1 ≤ b.1))

/-- Embedding of `data_loader.discover_files`: parse the trailing year token
of each candidate stem (skipping unparseable ones), key the dict by year
(last write wins), and return the entries sorted by year. -/
def discover_files (stems : List (List Char)) : List (Int × List Char) :=
  List.insertionSort (fun a b => a.1 ≤ b.1)
    (stems.foldl (fun acc p =>
      match parseYearToken p with
      | none => acc
      | some y => upsertYear acc y p) [])

/-- One sheet of one source workbook as returned by `pd.read_excel`: its
column names and its (already typed) rows. -/
structure Sheet where
  cols : List String
  rows : List Row

/-- The required columns of every source sheet. -/
def expectedCols : List String :=
  ["Year", "Month", "Indicator", "Value", "Unit", "Remarks"]

/-- Row order of `sort_values(["Year", "Month"])` (month compared as a
string). -/
def loadLe (a b : Row) : Prop :=
  a.year < b.year ∨ (a.year = b.year ∧ a.month ≤ b.month)

instance : DecidableRel loadLe := fun r s =>
  inferInstanceAs (Decidable (r.year < s.year ∨ (r.year = s.year ∧ r.month ≤ s.month)))

/-- Embedding of `data_loader.load_indicator`: discover the yearly files,
read the indicator's sheet from each (modelled by the `readSheet` file
system abstraction), validate the required columns, concatenate and sort.
`pd.concat` on an empty frame list raises
`ValueError("No objects to concatenate")`, the no-files error. -/
def load_indicator (key : IndicatorKey) (stems : List (List Char))
    (readSheet : List Char → String → Sheet) : Except AgentError (List Row) := do
  let files := discover_files stems
  let frames ← files.mapM (fun e => do
      let df := readSheet e.2 (INDICATORS key).sheet_name
      let missing := expectedCols.filter (fun c => !(df.cols.contains c))
      if missing.isEmpty then pure df.rows
      else throw (.missingColumns (String.mk e.2)))
  if frames.isEmpty then
    throw .noObjectsToConcatenate
  else
    pure (List.insertionSort loadLe frames.flatten)

/-- C10: when file discovery yields no usable source file (no candidate, or
every candidate's year token unparseable), `load_indicator` raises the
concat error instead of returning an empty table — it never returns a table
built from zero files. -/
theorem load_indicator_no_files (key : IndicatorKey) (stems : List (List Char))
    (readSheet : List Char → String → Sheet)
    (h : discover_files stems = []) :
    load_indicator key stems readSheet = .error .noObjectsToConcatenate := by
  rw [load_indicator]
  rw [h]
  rfl

theorem load_indicator_no_files_witness :
    load_indicator .energy ["GRI report draft".toList]
      (fun _ _ => ⟨[], []⟩) = .error .noObjectsToConcatenate :=
  load_indicator_no_files .energy ["GRI report draft".toList]
    (fun _ _ => ⟨[], []⟩) (by decide)

/-- `None if pd.isna(x) else float(x)` on a change cell. -/
def fvalToOpt (v : FVal) : Option FVal := if v = .nan then none else some v

/-- One per-year KPI record of the answer context. -/
structure KpiRecord where
  year : Int
  total_value : ℚ
  change_abs : Option FVal
  change_pct : Option FVal
  unit : String
deriving DecidableEq

/-- The structured KPI context assembled by `SustainabilityAgent.answer`
and handed to the text-generation collaborator. -/
structure KpiContext where
  indicator_key : IndicatorKey
  indicator_name : String
  gri_code : String
  unit : String
  years : List Int
  kpis : List KpiRecord
  base_narratives : List (Int × Narrative)
deriving DecidableEq

/-- Rendering of a float cell in the fallback text (`"n/a"` for None; the
fixed one-decimal formatting is abstracted to an exact rendering). -/
def fvalStr : FVal → String
  | .nan => "nan"
  | .pinf => "inf"
  | .ninf => "-inf"
  | .num q => toString q

/-- One `Year ...: total ...` line of the deterministic fallback answer. -/
def kpiLine (unit : String) (rec : KpiRecord) : String :=
  "Year " ++ toString rec.year ++ ": total " ++ toString rec.total_value ++
    " " ++ unit ++ " (change: " ++
    (match rec.change_abs with
     | none => "n/a"
     | some v => fvalStr v ++ " " ++ unit) ++ "; " ++
    (match rec.change_pct with
     | none => "n/a"
     | some v => fvalStr v ++ "%") ++ ")."

/-- Rendering of the structured change clause (fixed English sentences of
`_format_change`, magnitudes rendered exactly). -/
def clauseStr : ChangeClause → String
  | .baseline =>
      "This is the baseline year with no year-on-year comparison available."
  | .change d a p =>
      "This represents a " ++ d ++ " of approximately " ++ fvalStr a ++
        " units (" ++ fvalStr p ++ "% compared to the previous year)."

/-- Rendering of the structured narrative. -/
def narrativeStr (n : Narrative) : String :=
  "In " ++ toString n.year ++ ", the company reported a total of approximately " ++
    toString n.total ++ " " ++ n.unit ++ ". " ++ clauseStr n.clause ++
    " This performance is disclosed in alignment with " ++ n.gri_code ++ "."

/-- The deterministic fallback answer composed when the text-generation
call raises: header, one numeric line plus narrative per requested year,
and the error details. -/
def fallbackText (meta : IndicatorMeta) (unit : String) (kpis : List KpiRecord)
    (narrs : List (Int × Narrative)) (err : String) : String :=
  "LLM integration failed — returning deterministic KPI-based answer.\n\n" ++
    "Indicator: " ++ meta.kpi_name ++ " (" ++ meta.gri_code ++ ")\n" ++
    "Unit: " ++ unit ++ "\n\n" ++
    String.intercalate "\n"
      (kpis.map (fun rec =>
        kpiLine unit rec ++ "\n" ++
          (match narrs.find? (fun e => decide (e.1 = rec.year)) with
           | some e => narrativeStr e.2
           | none => "") ++ "\n")) ++
    "\n\n[Error details: " ++ err ++ "]"

/-- `row = yearly[yearly["Year"] == year].iloc[0]` and the KPI record built
from it (`​.iloc[0]` on an empty selection raises, modelled by the
year-not-found error; unreachable for validated years). -/
def kpiFor (yearly : List YearlyRow) (unit : String) (y : Int) :
    Except AgentError KpiRecord :=
  match yearly.find? (fun r => decide (r.year = y)) with
  | none => .error (.yearNotFound y)
  | some row =>
      .ok ⟨y, row.total_value, fvalToOpt row.change_abs,
        fvalToOpt row.change_pct, unit⟩

/-- The narrative entry built per valid year. -/
def narrFor (key : IndicatorKey) (rows : List Row) (unit : String) (y : Int) :
    Except AgentError (Int × Narrative) :=
  match build_indicator_narrative key rows y (some unit) with
  | .error e => .error e
  | .ok n => .ok (y, n)

/-- The `try`/`except` around the text-generation call: its result on
success, the deterministic fallback on any failure. -/
def llmStep (meta : IndicatorMeta) (unit : String) (kpis : List KpiRecord)
    (narrs : List (Int × Narrative)) (m : Except String String) :
    Except AgentError String :=
  match m with
  | .ok s => .ok s
  | .error e => .ok (fallbackText meta unit kpis narrs e)

/-- Embedding of `SustainabilityAgent.answer`.  `loadFn` abstracts
`_get_data` (the loader plus per-indicator cache), `llm` abstracts the
external `generate_sustainability_answer` call, which may fail with any
error.  Steps: detect indicator, load, aggregate, detect and validate
years, build records and narratives per valid year, then attempt the
text-generation call; only that call is wrapped in `try`/`except`, its
failure replaced by the deterministic fallback text.  (The source builds
record and narrative in one loop per year; splitting into two passes is
behaviourally identical since both fail only on an invalid year.) -/
def answer (loadFn : IndicatorKey → Except AgentError (List Row))
    (llm : List Char → KpiContext → Except String String)
    (query : List Char) : Except AgentError String :=
  match detect_indicator query with
  | .error e => .error e
  | .ok key =>
    match loadFn key with
    | .error e => .error e
    | .ok rows =>
      let meta := INDICATORS key
      let yearly := compute_yearly_totals rows
      match detect_years query rows with
      | .error e => .error e
      | .ok years_requested =>
        let years_available := yearly.map YearlyRow.year
        let years_valid :=
          years_requested.filter (fun y => years_available.contains y)
        if years_valid.isEmpty then .error (.noDataForYear years_available)
        else
          let unit := ((rows.head?).map Row.unit).getD ""
          match years_valid.mapM (kpiFor yearly unit) with
          | .error e => .error e
          | .ok kpis =>
            match years_valid.mapM (narrFor key rows unit) with
            | .error e => .error e
            | .ok narrs =>
              let ctx : KpiContext :=
                ⟨key, meta.kpi_name, meta.gri_code, unit, years_valid,
                  kpis, narrs⟩
              llmStep meta unit kpis narrs (llm query ctx)

lemma mapM_ok_of_forall {α β : Type} (f : α → Except AgentError β) :
    ∀ l : List α, (∀ a ∈ l, ∃ b, f a = .ok b) → ∃ bs, l.mapM f = .ok bs := by
  intro l
  induction l with
  | nil => intro _; exact ⟨[], rfl⟩
  | cons hd tl ih =>
    intro h
    obtain ⟨b, hb⟩ := h hd (List.mem_cons_self hd tl)
    obtain ⟨bs, hbs⟩ := ih (fun a ha => h a (List.mem_cons_of_mem _ ha))
    refine ⟨b :: bs, ?_⟩
    rw [List.mapM_cons, hb, hbs]
    rfl

lemma kpiFor_ok (yearly : List YearlyRow) (unit : String) (y : Int)
    (h : y ∈ yearly.map YearlyRow.year) :
    ∃ rec, kpiFor yearly unit y = .ok rec := by
  obtain ⟨r, hr, hry⟩ := List.mem_map.mp h
  have hsome : (yearly.find? (fun r' => decide (r'.year = y))).isSome := by
    rw [List.find?_isSome]
    exact ⟨r, hr, by simp [hry]⟩
  obtain ⟨row, hrow⟩ := Option.isSome_iff_exists.mp hsome
  simp only [kpiFor.eq_def, hrow]
  exact ⟨_, rfl⟩

lemma extractGo_ok (year : Int) :
    ∀ (l : List YearlyRow) (p : Option YearlyRow),
      (∃ r ∈ l, r.year = year) → ∃ out, extractGo year p l = .ok out := by
  intro l
  induction l with
  | nil =>
    intro p h
    obtain ⟨r, hr, _⟩ := h
    exact absurd hr (List.not_mem_nil r)
  | cons hd tl ih =>
    intro p h
    by_cases hhd : hd.year = year
    · exact ⟨(hd, p), by rw [extractGo, if_pos hhd]⟩
    · obtain ⟨r, hr, hry⟩ := h
      rcases List.mem_cons.mp hr with rfl | hrtl
      · exact absurd hry hhd
      · obtain ⟨out, hout⟩ := ih (some hd) ⟨r, hrtl, hry⟩
        exact ⟨out, by rw [extractGo, if_neg hhd]; exact hout⟩

lemma build_indicator_narrative_ok (key : IndicatorKey) (rows : List Row)
    (y : Int) (unit_label : Option String)
    (h : ∃ r ∈ compute_yearly_totals rows, r.year = y) :
    ∃ n, build_indicator_narrative key rows y unit_label = .ok n := by
  obtain ⟨out, hout⟩ := extractGo_ok y (compute_yearly_totals rows) none h
  obtain ⟨cur, prev⟩ := out
  have hex : extract_year_row (compute_yearly_totals rows) y = .ok (cur, prev) :=
    hout
  simp only [build_indicator_narrative.eq_def, hex]
  exact ⟨_, rfl⟩

lemma narrFor_ok (key : IndicatorKey) (rows : List Row) (unit : String) (y : Int)
    (h : ∃ r ∈ compute_yearly_totals rows, r.year = y) :
    ∃ p, narrFor key rows unit y = .ok p := by
  obtain ⟨n, hn⟩ := build_indicator_narrative_ok key rows y (some unit) h
  simp only [narrFor.eq_def, hn]
  exact ⟨_, rfl⟩

lemma llmStep_ok (meta : IndicatorMeta) (unit : String) (kpis : List KpiRecord)
    (narrs : List (Int × Narrative)) (m : Except String String) :
    ∃ s, llmStep meta unit kpis narrs m = .ok s := by
  cases m with
  | ok s => exact ⟨s, rfl⟩
  | error e => exact ⟨fallbackText meta unit kpis narrs e, rfl⟩

/-- C5: once indicator detection, data loading and year detection succeed
and at least one requested year is available, `answer` returns a string for
every behaviour of the text-generation collaborator — any failure of that
call is caught and replaced by the deterministic fallback answer; whereas
the errors of indicator detection, data loading and year detection, raised
before that call, propagate to the caller unconverted. -/
theorem answer_isolates_llm_failures
    (loadFn : IndicatorKey → Except AgentError (List Row))
    (llm : List Char → KpiContext → Except String String) (query : List Char) :
    (∀ key rows ys,
      detect_indicator query = .ok key →
      loadFn key = .ok rows →
      detect_years query rows = .ok ys →
      (ys.filter (fun y =>
        ((compute_yearly_totals rows).map YearlyRow.year).contains y)).isEmpty
          = false →
      ∃ s, answer loadFn llm query = .ok s) ∧
    (∀ e, detect_indicator query = .error e →
      answer loadFn llm query = .error e) ∧
    (∀ key e, detect_indicator query = .ok key → loadFn key = .error e →
      answer loadFn llm query = .error e) ∧
    (∀ key rows e, detect_indicator query = .ok key → loadFn key = .ok rows →
      detect_years query rows = .error e →
      answer loadFn llm query = .error e) ∧
    (∀ key rows ys, detect_indicator query = .ok key → loadFn key = .ok rows →
      detect_years query rows = .ok ys →
      ys.filter (fun y =>
        ((compute_yearly_totals rows).map YearlyRow.year).contains y) = [] →
      answer loadFn llm query =
        .error (.noDataForYear
          ((compute_yearly_totals rows).map YearlyRow.year))) := by
  refine ⟨?_, ?_, ?_, ?_, ?_⟩
  · intro key rows ys hdet hload hyears hvalid
    have hmem : ∀ y ∈ ys.filter (fun y =>
        ((compute_yearly_totals rows).map YearlyRow.year).contains y),
        y ∈ (compute_yearly_totals rows).map YearlyRow.year := by
      intro y hy
      have h2 := (List.mem_filter.mp hy).2
      simpa using h2
    obtain ⟨kpis, hkpis⟩ := mapM_ok_of_forall
      (kpiFor (compute_yearly_totals rows) (((rows.head?).map Row.unit).getD ""))
      (ys.filter (fun y =>
        ((compute_yearly_totals rows).map YearlyRow.year).contains y))
      (fun y hy => kpiFor_ok _ _ y (hmem y hy))
    obtain ⟨narrs, hnarrs⟩ := mapM_ok_of_forall
      (narrFor key rows (((rows.head?).map Row.unit).getD ""))
      (ys.filter (fun y =>
        ((compute_yearly_totals rows).map YearlyRow.year).contains y))
      (fun y hy => narrFor_ok key rows _ y (by
        obtain ⟨r, hr, hry⟩ := List.mem_map.mp (hmem y hy)
        exact ⟨r, hr, hry⟩))
    simp only [answer.eq_def, hdet, hload, hyears, hvalid, hkpis, hnarrs,
      Bool.false_eq_true, if_false]
    exact llmStep_ok _ _ _ _ _
  · intro e hdet
    simp only [answer.eq_def, hdet]
  · intro key e hdet hload
    simp only [answer.eq_def, hdet, hload]
  · intro key rows e hdet hload hyears
    simp only [answer.eq_def, hdet, hload, hyears]
  · intro key rows ys hdet hload hyears hempty
    simp only [answer.eq_def, hdet, hload, hyears, hempty, List.isEmpty_nil,
      if_true]

lemma exRows3_years :
    (compute_yearly_totals exRows3).map YearlyRow.year = [2021, 2022, 2023] := by
  rw [compute_yearly_totals_years]
  decide

theorem answer_isolates_llm_failures_witness :
    ∃ s, answer (fun _ => .ok exRows3) (fun _ _ => .error "llm down")
      ("water 2021".toList) = .ok s := by
  refine (answer_isolates_llm_failures (fun _ => .ok exRows3)
    (fun _ _ => .error "llm down") ("water 2021".toList)).1 .water exRows3
    [2021] (by decide) rfl (by decide) ?_
  simp only [exRows3_years]
  decide

/-- C9: when the years detected in the query have empty intersection with
the years available in the loaded data, `answer` fails with the
no-data-for-year error carrying the full list of available years. -/
theorem answer_no_data_for_year
    (loadFn : IndicatorKey → Except AgentError (List Row))
    (llm : List Char → KpiContext → Except String String) (query : List Char)
    (key : IndicatorKey) (rows : List Row) (ys : List Int)
    (hdet : detect_indicator query = .ok key)
    (hload : loadFn key = .ok rows)
    (hyears : detect_years query rows = .ok ys)
    (hempty : ys.filter (fun y =>
      ((compute_yearly_totals rows).map YearlyRow.year).contains y) = []) :
    answer loadFn llm query =
      .error (.noDataForYear
        ((compute_yearly_totals rows).map YearlyRow.year)) := by
  simp only [answer.eq_def, hdet, hload, hyears, hempty, List.isEmpty_nil,
    if_true]

theorem answer_no_data_for_year_witness :
    answer (fun _ => .ok exRows3) (fun _ _ => .error "llm down")
      ("water 2019".toList) = .error (.noDataForYear [2021, 2022, 2023]) := by
  have h := answer_no_data_for_year (fun _ => .ok exRows3)
    (fun _ _ => .error "llm down") ("water 2019".toList) .water exRows3 [2019]
    (by decide) rfl (by decide) (by simp only [exRows3_years]; decide)
  rw [exRows3_years] at h
  exact h
